import Mathlib

/-!
Shallow embedding of the lead-scoring core of the us-vet-scraping repository.

Sources embedded:
- src/models/scoring_models.py     (data model)
- src/scoring/lead_scorer.py       (LeadScorer)
- src/scoring/classifier.py        (PracticeClassifier)
- src/integrations/notion_scoring.py (circuit breaker of NotionScoringClient)
- src/scoring/scoring_orchestrator.py (ScoringOrchestrator error policy)

Modelling conventions:
- Python ints are Int, Python floats that hold ratings/multipliers are Rat.
  The Python float literals 0.9 and 0.7 denote the IEEE binary64 values nearest
  to those decimals, which are exactly 8106479329266893/2^53 and
  6305039478318694/2^53; the double multiplication in calculate_score is
  modelled exactly by roundDouble, which rounds the exact rational product to
  the nearest 53-significant-bit value (ties to even). This matters: for
  example int(90 * 0.7) is 62 in the program, not the exact-rational 63.
- Python Optional is Option; Python truthiness of optional strings and numbers
  is modelled explicitly (None and the empty string are falsy, 0.0 is falsy).
- Raised exceptions are Except.error values carrying the message.
- Effectful calls (Notion API, score_practice) are modelled by passing their
  observed outcome as an explicit argument.
-/

/-- ConfidenceLevel enum of scoring_models.py. -/
inductive ConfidenceLevel
  | high
  | medium
  | low
  deriving DecidableEq

/-- PriorityTier enum of scoring_models.py. -/
inductive PriorityTier
  | hot
  | warm
  | cold
  | outOfScope
  | pendingEnrichment
  deriving DecidableEq

/-- PracticeSizeCategory enum of scoring_models.py. -/
inductive PracticeSizeCategory
  | solo
  | small
  | sweetSpot
  | large
  | corporate
  deriving DecidableEq

/-- ScoringInput model of scoring_models.py. `has_multiple_locations` is declared
Optional[bool] with default False in the source; since Python truthiness maps None
to False it is modelled as Bool. -/
structure ScoringInput where
  practice_id : String
  google_rating : Option ℚ
  google_review_count : Option ℤ
  website : Option String
  has_multiple_locations : Bool
  vet_count_total : Option ℤ
  vet_count_confidence : Option ConfidenceLevel
  emergency_24_7 : Bool
  online_booking : Bool
  patient_portal : Bool
  telemedicine_virtual_care : Bool
  specialty_services : List String
  decision_maker_name : Option String
  decision_maker_email : Option String
  enrichment_status : Option String
  deriving DecidableEq

/-- ScoreComponent model of scoring_models.py. -/
structure ScoreComponent where
  score : ℤ
  max_possible : ℤ
  detail : String
  contributing_factors : List String
  missing_factors : List String
  deriving DecidableEq

/-- ScoreBreakdown model of scoring_models.py. -/
structure ScoreBreakdown where
  practice_size : ScoreComponent
  call_volume : ScoreComponent
  technology : ScoreComponent
  baseline : ScoreComponent
  decision_maker : ScoreComponent
  total_before_confidence : ℤ
  confidence_multiplier : ℚ
  total_after_confidence : ℤ
  confidence_level : Option ConfidenceLevel
  confidence_flags : List String
  deriving DecidableEq

/-- ScoringResult model of scoring_models.py. -/
structure ScoringResult where
  practice_id : String
  lead_score : ℤ
  priority_tier : PriorityTier
  practice_size_category : Option PracticeSizeCategory
  score_breakdown : ScoreBreakdown
  confidence_flags : List String
  scoring_status : String
  notes : Option String
  deriving DecidableEq

/-- Python truthiness of an optional string: None and the empty string are falsy. -/
def truthyStr : Option String → Bool
  | none => false
  | some s => !(s == "")

/-- Python truthiness of an optional rational: None and 0.0 are falsy. -/
def truthyRat : Option ℚ → Bool
  | none => false
  | some q => !(q == 0)

/-- Python int() truncation toward zero of a rational. -/
def pytrunc (q : ℚ) : ℤ := if 0 ≤ q then ⌊q⌋ else ⌈q⌉

/-- CONFIDENCE_MULTIPLIERS of LeadScorer. The Python float literals 1.0, 0.9 and
0.7 denote the IEEE binary64 values nearest to those decimals; 0.9 and 0.7 are
not representable, so the stored doubles are the exact rationals below. -/
def confidence_multipliers : ConfidenceLevel → ℚ
  | .high => 1
  | .medium => 8106479329266893 / 2 ^ 53
  | .low => 6305039478318694 / 2 ^ 53

/-- Round a nonnegative rational to the nearest IEEE binary64 value (round to
nearest, ties to even): the representable values around q are spaced
2 ^ (Int.log 2 q - 52) apart (53 significant bits, normal range). Models the
double product computed by the multiplication in calculate_score; it is the
identity on already-representable values such as small integers. -/
def roundDouble (q : ℚ) : ℚ :=
  if q = 0 then 0
  else
    let grid : ℚ := 2 ^ (Int.log 2 q - 52)
    let m : ℤ := ⌊q / grid⌋
    if q / grid - m < 1 / 2 then m * grid
    else if 1 / 2 < q / grid - m then (m + 1) * grid
    else if m % 2 = 0 then m * grid else (m + 1) * grid

/-- The vet_count_total range test of LeadScorer._validate_input. -/
def bad_vet_count (inp : ScoringInput) : Bool :=
  match inp.vet_count_total with
  | some v => if v < 0 ∨ v > 50 then true else false
  | none => false

/-- The google_rating range test of LeadScorer._validate_input. -/
def bad_rating (inp : ScoringInput) : Bool :=
  match inp.google_rating with
  | some r => if r < 0 ∨ r > 5 then true else false
  | none => false

/-- LeadScorer._validate_input: practice_id required, vet count 0..50 when present,
rating 0.0..5.0 when present. Raised ScoringValidationError becomes Except.error. -/
def validate_input (inp : ScoringInput) : Except String Unit :=
  if inp.practice_id == "" then .error "practice_id is required"
  else if bad_vet_count inp then .error "Invalid vet_count_total (must be 0-50)"
  else if bad_rating inp then .error "Invalid google_rating (must be 0.0-5.0)"
  else .ok ()

/-- LeadScorer._score_practice_size: 25 for 3..8 vets, 15 for 2 or 9, 5 otherwise,
plus a 15 point 24/7 emergency bonus, capped at MAX_PRACTICE_SIZE = 40; a missing
vet count scores 0 and is recorded as a missing factor. -/
def score_practice_size (inp : ScoringInput) : ScoreComponent :=
  match inp.vet_count_total with
  | none =>
      { score := min 0 40
        max_possible := 40
        detail := "Vet count unknown - cannot score practice size"
        contributing_factors := []
        missing_factors := ["Vet count (missing data)"] }
  | some n =>
      let base : ℤ := if 3 ≤ n ∧ n ≤ 8 then 25 else if n = 2 ∨ n = 9 then 15 else 5
      let baseContrib : String :=
        if 3 ≤ n ∧ n ≤ 8 then toString n ++ " vets (sweet spot: +25 pts)"
        else if n = 2 ∨ n = 9 then toString n ++ " vets (near sweet spot: +15 pts)"
        else toString n ++ " vets (solo/corporate: +5 pts)"
      let score : ℤ := base + (if inp.emergency_24_7 then 15 else 0)
      { score := min score 40
        max_possible := 40
        detail := toString n ++ " vets, emergency=" ++ toString inp.emergency_24_7
        contributing_factors :=
          [baseContrib] ++
            (if inp.emergency_24_7 then ["24/7 emergency services (+15 pts)"] else [])
        missing_factors := if inp.emergency_24_7 then [] else ["24/7 emergency services"] }

/-- Models the Python test `"board" in s.lower()` of LeadScorer._score_call_volume. -/
def mentions_board (s : String) : Bool :=
  decide (("board".toList) <:+: ((s.map Char.toLower).toList))

/-- LeadScorer._score_call_volume: review tiers 20/12/5, +10 multiple locations,
+10 high-value services, capped at MAX_CALL_VOLUME = 40. -/
def score_call_volume (inp : ScoringInput) : ScoreComponent :=
  let review_count : ℤ := inp.google_review_count.getD 0
  let s1 : ℤ :=
    if review_count ≥ 100 then 20
    else if review_count ≥ 50 then 12
    else if review_count ≥ 20 then 5 else 0
  let reviewFactors : List String :=
    if review_count ≥ 100 then [toString review_count ++ "+ reviews (+20 pts)"]
    else if review_count ≥ 50 then [toString review_count ++ " reviews (+12 pts)"]
    else if review_count ≥ 20 then [toString review_count ++ " reviews (+5 pts)"]
    else []
  let reviewMissing : List String :=
    if review_count ≥ 20 then []
    else ["Insufficient reviews (" ++ toString review_count ++ " < 20)"]
  let s2 : ℤ := s1 + (if inp.has_multiple_locations then 10 else 0)
  let has_boarding := inp.specialty_services.any mentions_board
  let has_specialty := inp.specialty_services.length > 0
  let has_high_value :=
    !(inp.specialty_services == []) && (has_boarding || decide has_specialty)
  let s3 : ℤ := s2 + (if has_high_value then 10 else 0)
  { score := min s3 40
    max_possible := 40
    detail := toString review_count ++ " reviews, "
      ++ toString inp.specialty_services.length ++ " services, multiple_locations="
      ++ toString inp.has_multiple_locations
    contributing_factors :=
      reviewFactors
        ++ (if inp.has_multiple_locations then ["Multiple locations (+10 pts)"] else [])
        ++ (if has_high_value then ["High-value services (+10 pts)"] else [])
    missing_factors :=
      reviewMissing
        ++ (if inp.has_multiple_locations then [] else ["Multiple locations"])
        ++ (if has_high_value then [] else ["Boarding or specialty services"]) }

/-- LeadScorer._score_technology: +10 online booking, +5 for patient portal OR
telemedicine (only one applies), capped at MAX_TECHNOLOGY = 20. -/
def score_technology (inp : ScoringInput) : ScoreComponent :=
  let s1 : ℤ := if inp.online_booking then 10 else 0
  let s2 : ℤ :=
    s1 + (if inp.patient_portal then 5 else if inp.telemedicine_virtual_care then 5 else 0)
  { score := min s2 20
    max_possible := 20
    detail := "booking=" ++ toString inp.online_booking ++ ", portal="
      ++ toString inp.patient_portal ++ ", tele=" ++ toString inp.telemedicine_virtual_care
    contributing_factors :=
      (if inp.online_booking then ["Online booking (+10 pts)"] else [])
        ++ (if inp.patient_portal then ["Patient portal (+5 pts)"]
            else if inp.telemedicine_virtual_care then ["Telemedicine (+5 pts)"] else [])
    missing_factors :=
      (if inp.online_booking then [] else ["Online booking"])
        ++ (if inp.patient_portal || inp.telemedicine_virtual_care then []
            else ["Patient portal or telemedicine"]) }

/-- LeadScorer._score_baseline: rating tiers 10/6/3, +6 website, +4 multiple
locations, capped at MAX_BASELINE = 20. -/
def score_baseline (inp : ScoringInput) : ScoreComponent :=
  let s1 : ℤ :=
    match inp.google_rating with
    | none => 0
    | some r => if r ≥ 9 / 2 then 10 else if r ≥ 4 then 6 else if r ≥ 7 / 2 then 3 else 0
  let s2 : ℤ := s1 + (if truthyStr inp.website then 6 else 0)
  let s3 : ℤ := s2 + (if inp.has_multiple_locations then 4 else 0)
  { score := min s3 20
    max_possible := 20
    detail := "rating/website/multi_loc summary"
    contributing_factors := []
    missing_factors := [] }

/-- LeadScorer._score_decision_maker: name and email 10 pts, name only 5 pts. -/
def score_decision_maker (inp : ScoringInput) : ScoreComponent :=
  let has_name := truthyStr inp.decision_maker_name
  let has_email := truthyStr inp.decision_maker_email
  if has_name && has_email then
    { score := 10
      max_possible := 10
      detail := "Name + email"
      contributing_factors := ["Decision maker identified (+10 pts)"]
      missing_factors := [] }
  else if has_name then
    { score := 5
      max_possible := 10
      detail := "Name only"
      contributing_factors := ["Decision maker name only (+5 pts)"]
      missing_factors := ["Decision maker email"] }
  else
    { score := 0
      max_possible := 10
      detail := "No decision maker identified"
      contributing_factors := []
      missing_factors := ["Decision maker name and email"] }

/-- LeadScorer._build_confidence_flags. -/
def build_confidence_flags (inp : ScoringInput) (level : ConfidenceLevel) : List String :=
  (if level = .low then ["Low confidence enrichment data (penalty: 0.7x)"]
   else if level = .medium then ["Medium confidence enrichment data (penalty: 0.9x)"]
   else [])
    ++ (if inp.vet_count_total = none then ["Missing vet count - practice size not scored"]
        else [])
    ++ (if truthyStr inp.decision_maker_name then [] else ["No decision maker identified"])
    ++ (if truthyRat inp.google_rating then [] else ["Missing Google rating"])

/-- PracticeClassifier.classify_practice_size. -/
def classify_practice_size : Option ℤ → Option PracticeSizeCategory
  | none => none
  | some n =>
      if n ≤ 1 then some .solo
      else if n ≤ 2 then some .small
      else if 3 ≤ n ∧ n ≤ 8 then some .sweetSpot
      else if 9 ≤ n ∧ n ≤ 19 then some .large
      else some .corporate

/-- PracticeClassifier.classify_priority_tier: a truthy enrichment_status that is not
Completed or Partial forces PendingEnrichment; otherwise the 80/50/20 score bands. -/
def classify_priority_tier (lead_score : ℤ) (enrichment_status : Option String) : PriorityTier :=
  if truthyStr enrichment_status
      && !(enrichment_status == some "Completed" || enrichment_status == some "Partial") then
    .pendingEnrichment
  else if lead_score ≥ 80 then .hot
  else if lead_score ≥ 50 then .warm
  else if lead_score ≥ 20 then .cold
  else .outOfScope

/-- The success path of LeadScorer.calculate_score after _validate_input passes. -/
def build_result (inp : ScoringInput) : ScoringResult :=
  let practice_size_comp := score_practice_size inp
  let call_volume_comp := score_call_volume inp
  let technology_comp := score_technology inp
  let baseline_comp := score_baseline inp
  let decision_maker_comp := score_decision_maker inp
  let total_before_confidence : ℤ :=
    practice_size_comp.score + call_volume_comp.score + technology_comp.score
      + baseline_comp.score + decision_maker_comp.score
  let confidence_level := inp.vet_count_confidence.getD .high
  let confidence_multiplier := confidence_multipliers confidence_level
  let total_after_confidence : ℤ :=
    min (pytrunc (roundDouble ((total_before_confidence : ℚ) * confidence_multiplier))) 120
  let confidence_flags := build_confidence_flags inp confidence_level
  { practice_id := inp.practice_id
    lead_score := total_after_confidence
    priority_tier := classify_priority_tier total_after_confidence inp.enrichment_status
    practice_size_category := classify_practice_size inp.vet_count_total
    score_breakdown :=
      { practice_size := practice_size_comp
        call_volume := call_volume_comp
        technology := technology_comp
        baseline := baseline_comp
        decision_maker := decision_maker_comp
        total_before_confidence := total_before_confidence
        confidence_multiplier := confidence_multiplier
        total_after_confidence := total_after_confidence
        confidence_level := some confidence_level
        confidence_flags := confidence_flags }
    confidence_flags := confidence_flags
    scoring_status := "Scored"
    notes := none }

/-- LeadScorer.calculate_score: validate, then compute the five components, apply the
confidence multiplier once to the total, build the result with status Scored. Any
raised error is re-raised as ScoringValidationError by the except handler. -/
def calculate_score (inp : ScoringInput) : Except String ScoringResult :=
  match validate_input inp with
  | .error e => .error ("Failed to calculate score: " ++ e)
  | .ok _ => .ok (build_result inp)

/-- Circuit breaker state of NotionScoringClient: consecutive-failure counter, open
flag, and the timestamp (seconds, time.time()) at which the breaker opened. -/
structure BreakerState where
  circuit_breaker_failures : ℕ
  circuit_breaker_open : Bool
  circuit_breaker_opened_at : Option ℚ
  deriving DecidableEq

/-- Breaker state set by NotionScoringClient.__init__. -/
def initBreaker : BreakerState :=
  { circuit_breaker_failures := 0
    circuit_breaker_open := false
    circuit_breaker_opened_at := none }

/-- NotionScoringClient._record_success: reset counter, clear open flag and
timestamp, regardless of prior state. -/
def record_success (_s : BreakerState) : BreakerState :=
  { circuit_breaker_failures := 0
    circuit_breaker_open := false
    circuit_breaker_opened_at := none }

/-- NotionScoringClient._record_failure at time now: increment the counter; once it
reaches CIRCUIT_BREAKER_THRESHOLD = 5 the breaker opens and records now. -/
def record_failure (now : ℚ) (s : BreakerState) : BreakerState :=
  let f := s.circuit_breaker_failures + 1
  if f ≥ 5 then
    { circuit_breaker_failures := f
      circuit_breaker_open := true
      circuit_breaker_opened_at := some now }
  else
    { circuit_breaker_failures := f
      circuit_breaker_open := s.circuit_breaker_open
      circuit_breaker_opened_at := s.circuit_breaker_opened_at }

/-- Result of NotionScoringClient._check_circuit_breaker: either the call may
proceed (with the possibly reset state), or it is rejected by raising
CircuitBreakerError, reporting the failure count. -/
inductive BreakerCheck
  | proceed (s : BreakerState)
  | rejected (failures : ℕ)
  deriving DecidableEq

/-- NotionScoringClient._check_circuit_breaker at time now: closed breaker lets the
call proceed; an open breaker whose truthy timestamp is at least
CIRCUIT_BREAKER_COOLDOWN = 60 seconds old resets to closed (counter zeroed) and
lets the call proceed; otherwise the call is rejected. The Python test
`if self.circuit_breaker_opened_at:` is truthiness, hence the t = 0 exclusion. -/
def check_circuit_breaker (now : ℚ) (s : BreakerState) : BreakerCheck :=
  if s.circuit_breaker_open = false then .proceed s
  else
    match s.circuit_breaker_opened_at with
    | some t =>
        if t ≠ 0 ∧ now - t ≥ 60 then .proceed initBreaker
        else .rejected s.circuit_breaker_failures
    | none => .rejected s.circuit_breaker_failures

/-- List of failure timestamps applied in order through record_failure. -/
def fail_seq (ts : List ℚ) (s : BreakerState) : BreakerState :=
  ts.foldl (fun st t => record_failure t st) s

/-- Failure path of fetch_google_maps_data and fetch_enrichment_data: the except
handler records one breaker failure and re-raises the APIResponseError. -/
def inner_fetch_failure (now : ℚ) (s : BreakerState) : BreakerState :=
  record_failure now s

/-- Failure path of NotionScoringClient.fetch_scoring_input when an inner fetch
fails: each of the k failed retry attempts of the inner fetch records one failure
(tenacity re-invokes the whole decorated function, 1 <= k <= 3), then the except
handler of fetch_scoring_input itself records one more failure before re-raising. -/
def fetch_scoring_input_failure (now : ℚ) (k : ℕ) (s : BreakerState) : BreakerState :=
  record_failure now ((inner_fetch_failure now)^[k] s)

/-- Observed outcome of one score_practice / score_practice_async call, i.e. which
of the exceptions listed in its docstring it raised, if any. -/
inductive ScoreOutcome
  | ok (r : ScoringResult)
  | timeoutErr (msg : String)
  | breakerOpenErr (msg : String)
  | validationErr (msg : String)
  | genericErr (msg : String)
  deriving DecidableEq

/-- ScoringOrchestrator.trigger_scoring_after_enrichment as a function of the
outcome of its inner score_practice call: ScoringTimeoutError and generic
exceptions (which include ScoringValidationError) are logged and swallowed,
returning None; CircuitBreakerError is re-raised. -/
def trigger_scoring_after_enrichment : ScoreOutcome → Except String (Option ScoringResult)
  | .ok r => .ok (some r)
  | .timeoutErr _ => .ok none
  | .breakerOpenErr m => .error m
  | .validationErr _ => .ok none
  | .genericErr _ => .ok none

/-- Batch summary dict returned by ScoringOrchestrator.score_batch_async. Errors
are (practice_id, error_type, error) triples. -/
structure BatchSummary where
  total : ℕ
  succeeded : ℕ
  failed : ℕ
  timeout : ℕ
  circuit_breaker_blocked : ℕ
  results : List ScoringResult
  errors : List (String × String × String)
  deriving DecidableEq

/-- Loop body of ScoringOrchestrator.score_batch_async, with run giving the
observed outcome of score_practice_async per practice id: successes accumulate
results; ScoringTimeoutError and generic exceptions (including validation errors)
are recorded and, when continue_on_error is set, the loop moves on;
CircuitBreakerError is recorded and always aborts the remainder of the batch. -/
def score_batch_go (run : String → ScoreOutcome) (continue_on_error : Bool) :
    List String → BatchSummary → BatchSummary
  | [], acc => acc
  | pid :: rest, acc =>
    match run pid with
    | .ok r =>
        score_batch_go run continue_on_error rest
          { acc with succeeded := acc.succeeded + 1, results := acc.results ++ [r] }
    | .timeoutErr m =>
        let acc2 :=
          { acc with
            timeout := acc.timeout + 1
            failed := acc.failed + 1
            errors := acc.errors ++ [(pid, "timeout", m)] }
        if continue_on_error then score_batch_go run continue_on_error rest acc2 else acc2
    | .breakerOpenErr m =>
        { acc with
          circuit_breaker_blocked := acc.circuit_breaker_blocked + 1
          failed := acc.failed + 1
          errors := acc.errors ++ [(pid, "circuit_breaker", m)] }
    | .validationErr m =>
        let acc2 :=
          { acc with
            failed := acc.failed + 1
            errors := acc.errors ++ [(pid, "general", m)] }
        if continue_on_error then score_batch_go run continue_on_error rest acc2 else acc2
    | .genericErr m =>
        let acc2 :=
          { acc with
            failed := acc.failed + 1
            errors := acc.errors ++ [(pid, "general", m)] }
        if continue_on_error then score_batch_go run continue_on_error rest acc2 else acc2

/-- ScoringOrchestrator.score_batch_async: total is the length of the input list,
all other counters start at zero. -/
def score_batch_async (run : String → ScoreOutcome) (continue_on_error : Bool)
    (practice_ids : List String) : BatchSummary :=
  score_batch_go run continue_on_error practice_ids
    { total := practice_ids.length
      succeeded := 0
      failed := 0
      timeout := 0
      circuit_breaker_blocked := 0
      results := []
      errors := [] }

/-- The practice ids the batch loop actually attempts when continue_on_error is
set: everything up to and including the first breaker-blocked id. -/
def processed_ids (run : String → ScoreOutcome) : List String → List String
  | [] => []
  | pid :: rest =>
    match run pid with
    | .breakerOpenErr _ => [pid]
    | _ => pid :: processed_ids run rest

/-- Whether an outcome is a success. -/
def is_success : ScoreOutcome → Bool
  | .ok _ => true
  | _ => false

/-- Whether an outcome is a timeout. -/
def is_timeout : ScoreOutcome → Bool
  | .timeoutErr _ => true
  | _ => false

/-- Whether an outcome is a circuit-breaker rejection. -/
def is_breaker : ScoreOutcome → Bool
  | .breakerOpenErr _ => true
  | _ => false

/-- Whether an outcome lands in the generic except-Exception branch of the batch
loop (validation errors included). -/
def is_general : ScoreOutcome → Bool
  | .validationErr _ => true
  | .genericErr _ => true
  | _ => false

/-- The error-list entry the batch loop records for one practice id, if any. -/
def error_entry (pid : String) : ScoreOutcome → Option (String × String × String)
  | .ok _ => none
  | .timeoutErr m => some (pid, "timeout", m)
  | .breakerOpenErr m => some (pid, "circuit_breaker", m)
  | .validationErr m => some (pid, "general", m)
  | .genericErr m => some (pid, "general", m)

/-- The result the batch loop records for one practice id, if any. -/
def result_entry : ScoreOutcome → Option ScoringResult
  | .ok r => some r
  | _ => none

/-- C1: for every ScoringInput that passes validation, the practice-size component
scores 25 for a present vet count in [3,8], 15 for 2 or 9, and 5 for every other
present count; an absent vet count scores 0 and is recorded as a missing factor
while scoring still succeeds; the emergency flag adds exactly 15 on top of the
tier base; the component score never exceeds the 40 point cap. -/
theorem practice_size_component (inp : ScoringInput)
    (h : validate_input inp = .ok ()) :
    (inp.vet_count_total = none →
      (score_practice_size inp).score = 0
      ∧ "Vet count (missing data)" ∈ (score_practice_size inp).missing_factors
      ∧ calculate_score inp = .ok (build_result inp))
    ∧ (∀ n : ℤ, inp.vet_count_total = some n → inp.emergency_24_7 = false →
        (score_practice_size inp).score =
          if 3 ≤ n ∧ n ≤ 8 then 25 else if n = 2 ∨ n = 9 then 15 else 5)
    ∧ (∀ n : ℤ, inp.vet_count_total = some n → inp.emergency_24_7 = true →
        (score_practice_size inp).score =
          (if 3 ≤ n ∧ n ≤ 8 then 25 else if n = 2 ∨ n = 9 then 15 else 5) + 15)
    ∧ (score_practice_size inp).score ≤ 40 := by
  refine ⟨?_, ?_, ?_, ?_⟩
  · intro hn
    simp [score_practice_size, hn, calculate_score, h]
  · intro n hn he
    simp only [score_practice_size, hn, he, if_neg Bool.false_ne_true]
    split_ifs <;> simp
  · intro n hn he
    simp only [score_practice_size, hn, he, if_pos rfl]
    split_ifs <;> simp
  · rcases hv : inp.vet_count_total with _ | n
    · simp only [score_practice_size, hv]
      omega
    · simp only [score_practice_size, hv]
      split_ifs <;> simp

/-- Concrete input for the C1 witness: 5 vets, no emergency, passes validation. -/
def inpC1 : ScoringInput :=
  { practice_id := "p-c1"
    google_rating := none
    google_review_count := none
    website := none
    has_multiple_locations := false
    vet_count_total := some 5
    vet_count_confidence := none
    emergency_24_7 := false
    online_booking := false
    patient_portal := false
    telemedicine_virtual_care := false
    specialty_services := []
    decision_maker_name := none
    decision_maker_email := none
    enrichment_status := none }

/-- C1 witness: the hypothesis holds at inpC1 and the cap conclusion follows by
applying practice_size_component there. -/
theorem practice_size_component_witness :
    validate_input inpC1 = Except.ok () ∧ (score_practice_size inpC1).score ≤ 40 :=
  ⟨by rfl, (practice_size_component inpC1 (by rfl)).2.2.2⟩

/-- Helper: Int.log 2 is determined by the enclosing power-of-two interval. -/
theorem int_log_eq_of_bounds {q : ℚ} {k : ℤ} (h0 : 0 < q)
    (h1 : (2 : ℚ) ^ k ≤ q) (h2 : q < (2 : ℚ) ^ (k + 1)) : Int.log 2 q = k := by
  have hcast : ((2 : ℕ) : ℚ) = (2 : ℚ) := by norm_num
  have hle : k ≤ Int.log 2 q := by
    apply (Int.zpow_le_iff_le_log (by norm_num) h0).mp
    rw [hcast]
    exact h1
  have hlt : Int.log 2 q < k + 1 := by
    apply (Int.lt_zpow_iff_log_lt (by norm_num) h0).mp
    rw [hcast]
    exact h2
  omega

/-- Fidelity check of the rounding model: at total 90 with the low multiplier the
double product rounds just below 63, so the truncated score is 62 - one less than
the exact-rational 63 - exactly as the program computes int(90 * 0.7). -/
theorem roundDouble_low_total_90 :
    pytrunc (roundDouble (((90 : ℤ) : ℚ) * confidence_multipliers .low)) = 62 := by
  have hq : (((90 : ℤ) : ℚ) * confidence_multipliers .low)
      = 567453553048682460 / 2 ^ 53 := by
    norm_num [confidence_multipliers]
  rw [hq]
  have h0 : ¬((567453553048682460 : ℚ) / 2 ^ 53 = 0) := by norm_num
  have hlog : Int.log 2 ((567453553048682460 : ℚ) / 2 ^ 53) = 5 :=
    int_log_eq_of_bounds (by norm_num) (by norm_num) (by norm_num)
  simp only [roundDouble, if_neg h0, hlog]
  have hgrid : (2 : ℚ) ^ (5 - 52 : ℤ) = 1 / 2 ^ 47 := by norm_num
  rw [hgrid]
  have hm : ⌊(567453553048682460 : ℚ) / 2 ^ 53 / (1 / 2 ^ 47)⌋ = 8866461766385663 := by
    rw [Int.floor_eq_iff]
    constructor <;> norm_num
  rw [hm]
  rw [if_pos (by norm_num)]
  have hval : ((8866461766385663 : ℤ) : ℚ) * (1 / 2 ^ 47)
      = 8866461766385663 / 2 ^ 47 := by
    norm_num
  rw [hval]
  simp only [pytrunc]
  rw [if_pos (by norm_num), Int.floor_eq_iff]
  constructor <;> norm_num

/-- C2: for every ScoringInput that passes validation, the confidence multiplier is
resolved once from the confidence level (high 1.0, medium 0.9, low 0.7, absent
treated as high) and applied exactly once to the five-component sum
total_before_confidence, with the product truncated toward zero and clamped to at
most 120; components summing to 100 at low confidence give 70. -/
theorem confidence_applied_once (inp : ScoringInput)
    (h : validate_input inp = .ok ()) :
    calculate_score inp = .ok (build_result inp)
    ∧ (build_result inp).score_breakdown.confidence_multiplier
        = confidence_multipliers (inp.vet_count_confidence.getD .high)
    ∧ confidence_multipliers .high = 1
    ∧ confidence_multipliers .medium = 8106479329266893 / 2 ^ 53
    ∧ confidence_multipliers .low = 6305039478318694 / 2 ^ 53
    ∧ (build_result inp).score_breakdown.total_before_confidence
        = (score_practice_size inp).score + (score_call_volume inp).score
          + (score_technology inp).score + (score_baseline inp).score
          + (score_decision_maker inp).score
    ∧ (build_result inp).score_breakdown.total_after_confidence
        = min (pytrunc (roundDouble
            (((build_result inp).score_breakdown.total_before_confidence : ℚ)
              * (build_result inp).score_breakdown.confidence_multiplier))) 120
    ∧ (build_result inp).lead_score ≤ 120
    ∧ (inp.vet_count_confidence = some .low →
        (build_result inp).score_breakdown.total_before_confidence = 100 →
        (build_result inp).score_breakdown.total_after_confidence = 70) := by
  refine ⟨?_, rfl, rfl, rfl, rfl, rfl, rfl, ?_, ?_⟩
  · simp [calculate_score, h]
  · simp only [build_result]
    exact min_le_right _ _
  · intro hlow htot
    simp only [build_result] at htot ⊢
    rw [htot, hlow]
    have hq : (((100 : ℤ) : ℚ)
          * confidence_multipliers ((some ConfidenceLevel.low).getD .high))
        = 630503947831869400 / 2 ^ 53 := by
      norm_num [confidence_multipliers]
    rw [hq]
    have h0 : ¬((630503947831869400 : ℚ) / 2 ^ 53 = 0) := by norm_num
    have hlog : Int.log 2 ((630503947831869400 : ℚ) / 2 ^ 53) = 6 :=
      int_log_eq_of_bounds (by norm_num) (by norm_num) (by norm_num)
    simp only [roundDouble, if_neg h0, hlog]
    have hgrid : (2 : ℚ) ^ (6 - 52 : ℤ) = 1 / 2 ^ 46 := by norm_num
    rw [hgrid]
    have hm : ⌊(630503947831869400 : ℚ) / 2 ^ 53 / (1 / 2 ^ 46)⌋ = 4925812092436479 := by
      rw [Int.floor_eq_iff]
      constructor <;> norm_num
    rw [hm]
    rw [if_neg (by norm_num), if_pos (by norm_num)]
    have hval70 : (((4925812092436479 : ℤ) : ℚ) + 1) * (1 / 2 ^ 46) = ((70 : ℤ) : ℚ) := by
      norm_num
    rw [hval70]
    simp [pytrunc, Int.floor_intCast]


/-- Concrete input for the C2 witness: components sum to 100 at low confidence. -/
def inpC2 : ScoringInput :=
  { practice_id := "p-c2"
    google_rating := some (9 / 2)
    google_review_count := some 150
    website := none
    has_multiple_locations := false
    vet_count_total := some 5
    vet_count_confidence := some .low
    emergency_24_7 := true
    online_booking := true
    patient_portal := false
    telemedicine_virtual_care := false
    specialty_services := ["Surgery"]
    decision_maker_name := some "Dana Vet"
    decision_maker_email := some "dana@example.com"
    enrichment_status := some "Completed" }

/-- C2 witness: inpC2 passes validation, its components sum to 100 at low
confidence, and confidence_applied_once applied there yields 70. -/
theorem confidence_applied_once_witness :
    validate_input inpC2 = Except.ok ()
    ∧ inpC2.vet_count_confidence = some ConfidenceLevel.low
    ∧ (build_result inpC2).score_breakdown.total_before_confidence = 100
    ∧ (build_result inpC2).score_breakdown.total_after_confidence = 70 := by
  have hval : validate_input inpC2 = Except.ok () := by
    norm_num [validate_input, inpC2, bad_vet_count, bad_rating]
    intro h
    exact absurd h (by decide)
  have htot : (build_result inpC2).score_breakdown.total_before_confidence = 100 := by
    have h1 : (score_practice_size inpC2).score = 40 := by
      norm_num [score_practice_size, inpC2]
    have h2 : (score_call_volume inpC2).score = 30 := by
      norm_num [score_call_volume, inpC2]
    have h3 : (score_technology inpC2).score = 10 := by
      norm_num [score_technology, inpC2]
    have h4 : (score_baseline inpC2).score = 10 := by
      norm_num [score_baseline, inpC2, truthyStr]
    have h5 : (score_decision_maker inpC2).score = 10 := by decide
    simp only [build_result]
    rw [h1, h2, h3, h4, h5]
    norm_num
  exact ⟨hval, rfl, htot,
    (confidence_applied_once inpC2 hval).2.2.2.2.2.2.2.2 rfl htot⟩

/-- C3 counterexample: the empty-string enrichment status is present and is not
Completed or Partial, yet score 95 is classified Hot, not PendingEnrichment,
because Python treats the empty string as falsy. -/
theorem classify_priority_tier_empty_status_counterexample :
    (some "" ≠ (none : Option String))
    ∧ (some "" ≠ some "Completed" ∧ (some "" : Option String) ≠ some "Partial")
    ∧ classify_priority_tier 95 (some "") = PriorityTier.hot := by
  refine ⟨by simp, ⟨by simp, by simp⟩, ?_⟩
  norm_num [classify_priority_tier, truthyStr]

/-- C3 (amended: a present status label must also be non-empty to force
PendingEnrichment; an empty-string status is treated as absent): for every score
and status, a present non-empty status outside {Completed, Partial} yields
PendingEnrichment regardless of score, and otherwise (absent, empty, Completed or
Partial) the 80/50/20 bands apply. -/
theorem classify_priority_tier_spec (s : ℤ) (st : Option String) :
    ((∃ x, st = some x ∧ x ≠ "" ∧ x ≠ "Completed" ∧ x ≠ "Partial") →
      classify_priority_tier s st = PriorityTier.pendingEnrichment)
    ∧ ((st = none ∨ st = some "" ∨ st = some "Completed" ∨ st = some "Partial") →
      classify_priority_tier s st =
        if s ≥ 80 then PriorityTier.hot
        else if s ≥ 50 then PriorityTier.warm
        else if s ≥ 20 then PriorityTier.cold
        else PriorityTier.outOfScope) := by
  constructor
  · rintro ⟨x, rfl, hx, hc, hp⟩
    simp [classify_priority_tier, truthyStr, hx, hc, hp]
  · rintro (rfl | rfl | rfl | rfl) <;> simp [classify_priority_tier, truthyStr]

/-- C3 witness: status "New" with score 95 satisfies the present-branch premise
and is classified PendingEnrichment by classify_priority_tier_spec. -/
theorem classify_priority_tier_spec_witness :
    (∃ x, (some "New" : Option String) = some x ∧ x ≠ "" ∧ x ≠ "Completed" ∧ x ≠ "Partial")
    ∧ classify_priority_tier 95 (some "New") = PriorityTier.pendingEnrichment :=
  ⟨⟨"New", rfl, by decide, by decide, by decide⟩,
    (classify_priority_tier_spec 95 (some "New")).1
      ⟨"New", rfl, by decide, by decide, by decide⟩⟩

/-- C4: every recorded failure increments the consecutive-failure counter by one;
the breaker opens (recording the open timestamp) exactly when the counter reaches
the threshold 5, so four consecutive failures from the initial state leave it
closed and the fifth opens it; every recorded success resets counter, open flag
and timestamp regardless of prior state. -/
theorem breaker_threshold_behaviour (s : BreakerState) (t : ℚ) :
    (record_failure t s).circuit_breaker_failures = s.circuit_breaker_failures + 1
    ∧ (s.circuit_breaker_failures + 1 ≥ 5 →
        record_failure t s =
          { circuit_breaker_failures := s.circuit_breaker_failures + 1
            circuit_breaker_open := true
            circuit_breaker_opened_at := some t })
    ∧ (s.circuit_breaker_failures + 1 < 5 →
        record_failure t s =
          { circuit_breaker_failures := s.circuit_breaker_failures + 1
            circuit_breaker_open := s.circuit_breaker_open
            circuit_breaker_opened_at := s.circuit_breaker_opened_at })
    ∧ record_success s = initBreaker
    ∧ (∀ t1 t2 t3 t4 t5 : ℚ,
        (fail_seq [t1, t2, t3, t4] initBreaker).circuit_breaker_open = false
        ∧ fail_seq [t1, t2, t3, t4, t5] initBreaker =
            { circuit_breaker_failures := 5
              circuit_breaker_open := true
              circuit_breaker_opened_at := some t5 }) := by
  refine ⟨?_, ?_, ?_, rfl, ?_⟩
  · simp only [record_failure]
    split <;> rfl
  · intro h
    simp [record_failure, h]
  · intro h
    simp only [record_failure]
    rw [if_neg (by omega)]
  · intro t1 t2 t3 t4 t5
    constructor <;> norm_num [fail_seq, record_failure, initBreaker]

/-- C4 witness: applying breaker_threshold_behaviour at the initial state, the
first failure leaves the breaker closed with counter 1. -/
theorem breaker_threshold_behaviour_witness :
    initBreaker.circuit_breaker_failures + 1 < 5
    ∧ record_failure 1 initBreaker =
        { circuit_breaker_failures := 1
          circuit_breaker_open := false
          circuit_breaker_opened_at := none } :=
  ⟨by norm_num [initBreaker], (breaker_threshold_behaviour initBreaker 1).2.2.1 (by norm_num [initBreaker])⟩

/-- C5 counterexample to "if that probe fails the breaker reopens": an open breaker
(5 failures, opened at t = 100) checked at t = 160 resets and proceeds, but a
failure of that probe only brings the counter to 1 and leaves the breaker closed,
since the reset zeroed the counter and the threshold is 5. -/
theorem breaker_probe_failure_counterexample :
    check_circuit_breaker 160
      { circuit_breaker_failures := 5
        circuit_breaker_open := true
        circuit_breaker_opened_at := some 100 } = BreakerCheck.proceed initBreaker
    ∧ (record_failure 160 initBreaker).circuit_breaker_open = false := by
  constructor
  · norm_num [check_circuit_breaker]
  · norm_num [record_failure, initBreaker]

/-- C5 (amended: a failed probe does not reopen the breaker; it merely increments
the zeroed counter to 1, the breaker reopening only after failures again reach the
threshold 5): while open with a positive open timestamp t, a call strictly less
than 60 seconds after t is rejected with no attempt; at elapsed time at least 60
seconds the breaker resets to closed with the counter zeroed and the call
proceeds as a probe, and a failure of that probe leaves the breaker closed at
counter 1. -/
theorem breaker_cooldown_spec (s : BreakerState) (t now : ℚ)
    (hopen : s.circuit_breaker_open = true)
    (hts : s.circuit_breaker_opened_at = some t) (hpos : 0 < t) :
    (now - t < 60 → check_circuit_breaker now s = .rejected s.circuit_breaker_failures)
    ∧ (now - t ≥ 60 →
        check_circuit_breaker now s = .proceed initBreaker
        ∧ ∀ t2 : ℚ, record_failure t2 initBreaker =
            { circuit_breaker_failures := 1
              circuit_breaker_open := false
              circuit_breaker_opened_at := none }) := by
  constructor
  · intro hlt
    simp only [check_circuit_breaker, hopen, hts]
    rw [if_neg (by simp), if_neg (by rintro ⟨h1, h2⟩; linarith)]
  · intro hge
    refine ⟨?_, ?_⟩
    · simp only [check_circuit_breaker, hopen, hts]
      rw [if_neg (by simp), if_pos ⟨by linarith, hge⟩]
    · intro t2
      norm_num [record_failure, initBreaker]

/-- C5 witness: the open state (5 failures, opened at 100) checked at time 160 is
exactly at the 60-second boundary and proceeds with the reset state. -/
theorem breaker_cooldown_spec_witness :
    (160 : ℚ) - 100 ≥ 60
    ∧ check_circuit_breaker 160
        { circuit_breaker_failures := 5
          circuit_breaker_open := true
          circuit_breaker_opened_at := some 100 } = BreakerCheck.proceed initBreaker :=
  ⟨by norm_num,
    ((breaker_cooldown_spec
        { circuit_breaker_failures := 5
          circuit_breaker_open := true
          circuit_breaker_opened_at := some 100 } 100 160 rfl rfl (by norm_num)).2
      (by norm_num)).1⟩

/-- Helper: record_failure always increments the counter by exactly one. -/
theorem record_failure_count (t : ℚ) (s : BreakerState) :
    (record_failure t s).circuit_breaker_failures = s.circuit_breaker_failures + 1 := by
  simp only [record_failure]
  split <;> rfl

/-- Helper: k iterated inner-fetch failures add k to the counter. -/
theorem iterate_inner_fetch_failure_count (now : ℚ) (k : ℕ) :
    ∀ s : BreakerState,
      ((inner_fetch_failure now)^[k] s).circuit_breaker_failures
        = s.circuit_breaker_failures + k := by
  induction k with
  | zero => intro s; simp
  | succ n ih =>
      intro s
      rw [Function.iterate_succ_apply, ih (inner_fetch_failure now s)]
      simp only [inner_fetch_failure]
      rw [record_failure_count]
      omega

/-- C10: a single failed entity-level fetch_scoring_input advances the counter by
k + 1 where k is the number of failed inner-fetch attempts, hence by at least 2;
three consecutive failed entity-level fetches from the initial state already open
the breaker (fewer than five entity-level attempts). -/
theorem fetch_scoring_input_double_count (now : ℚ) (k : ℕ) (s : BreakerState)
    (hk : 1 ≤ k) :
    (fetch_scoring_input_failure now k s).circuit_breaker_failures
      = s.circuit_breaker_failures + k + 1
    ∧ s.circuit_breaker_failures + 2 ≤
        (fetch_scoring_input_failure now k s).circuit_breaker_failures
    ∧ ∀ t1 t2 t3 : ℚ,
        (fetch_scoring_input_failure t3 1 (fetch_scoring_input_failure t2 1
          (fetch_scoring_input_failure t1 1 initBreaker))).circuit_breaker_open = true := by
  have hcount : (fetch_scoring_input_failure now k s).circuit_breaker_failures
      = s.circuit_breaker_failures + k + 1 := by
    simp only [fetch_scoring_input_failure]
    rw [record_failure_count, iterate_inner_fetch_failure_count]
  refine ⟨hcount, by omega, ?_⟩
  intro t1 t2 t3
  norm_num [fetch_scoring_input_failure, inner_fetch_failure, Function.iterate_one,
    record_failure, initBreaker]

/-- C10 witness: one failed entity-level fetch with a single inner attempt takes the
fresh counter from 0 to 2. -/
theorem fetch_scoring_input_double_count_witness :
    (1 : ℕ) ≤ 1
    ∧ (fetch_scoring_input_failure 0 1 initBreaker).circuit_breaker_failures
        = initBreaker.circuit_breaker_failures + 1 + 1 :=
  ⟨le_refl 1, (fetch_scoring_input_double_count 0 1 initBreaker (le_refl 1)).1⟩

/-- C6 counterexample: a breaker-open error inside trigger_scoring_after_enrichment
is re-raised to the caller, not swallowed to None. -/
theorem trigger_breaker_open_counterexample :
    trigger_scoring_after_enrichment (ScoreOutcome.breakerOpenErr "circuit open")
      = Except.error "circuit open" := rfl

/-- C6 (amended: timeout, validation and generic scoring errors are swallowed after
logging and the method returns None, but a breaker-open error is re-raised to the
enrichment caller): the full error policy of trigger_scoring_after_enrichment. -/
theorem trigger_error_policy (m : String) (r : ScoringResult) :
    trigger_scoring_after_enrichment (.timeoutErr m) = .ok none
    ∧ trigger_scoring_after_enrichment (.validationErr m) = .ok none
    ∧ trigger_scoring_after_enrichment (.genericErr m) = .ok none
    ∧ trigger_scoring_after_enrichment (.breakerOpenErr m) = .error m
    ∧ trigger_scoring_after_enrichment (.ok r) = .ok (some r) :=
  ⟨rfl, rfl, rfl, rfl, rfl⟩

/-- C8: calculate_score rejects with a validation error, producing no
ScoringResult, whenever vet_count_total is present and outside [0,50] or
google_rating is present and outside [0,5]; no clamping occurs. -/
theorem validation_rejects (inp : ScoringInput)
    (h : (∃ v, inp.vet_count_total = some v ∧ (v < 0 ∨ 50 < v))
        ∨ (∃ q, inp.google_rating = some q ∧ (q < 0 ∨ 5 < q))) :
    (∃ msg, calculate_score inp = .error msg)
    ∧ ∀ r, calculate_score inp ≠ .ok r := by
  have hv : ∃ msg, validate_input inp = .error msg := by
    by_cases hp : inp.practice_id == ""
    · exact ⟨"practice_id is required", by simp [validate_input, hp]⟩
    · rcases h with ⟨v, hv1, hv2⟩ | ⟨q, hq1, hq2⟩
      · have hb : bad_vet_count inp = true := by
          simp only [bad_vet_count, hv1]
          rw [if_pos hv2]
        exact ⟨"Invalid vet_count_total (must be 0-50)", by simp [validate_input, hp, hb]⟩
      · by_cases hb : bad_vet_count inp = true
        · exact ⟨"Invalid vet_count_total (must be 0-50)", by simp [validate_input, hp, hb]⟩
        · have hr : bad_rating inp = true := by
            simp only [bad_rating, hq1]
            rw [if_pos hq2]
          exact ⟨"Invalid google_rating (must be 0.0-5.0)", by simp [validate_input, hp, hb, hr]⟩
  obtain ⟨msg, hmsg⟩ := hv
  refine ⟨⟨"Failed to calculate score: " ++ msg, ?_⟩, ?_⟩
  · simp [calculate_score, hmsg]
  · intro r hr
    simp [calculate_score, hmsg] at hr

/-- Concrete input for the C8 witness: a present vet count of 60 is out of range. -/
def inpC8 : ScoringInput :=
  { practice_id := "p-c8"
    google_rating := none
    google_review_count := none
    website := none
    has_multiple_locations := false
    vet_count_total := some 60
    vet_count_confidence := none
    emergency_24_7 := false
    online_booking := false
    patient_portal := false
    telemedicine_virtual_care := false
    specialty_services := []
    decision_maker_name := none
    decision_maker_email := none
    enrichment_status := none }

/-- C8 witness: vet count 60 satisfies the out-of-range hypothesis and
validation_rejects yields an error and no result at inpC8. -/
theorem validation_rejects_witness :
    ((∃ v, inpC8.vet_count_total = some v ∧ (v < 0 ∨ 50 < v))
      ∨ (∃ q, inpC8.google_rating = some q ∧ (q < 0 ∨ 5 < q)))
    ∧ ((∃ msg, calculate_score inpC8 = .error msg)
        ∧ ∀ r, calculate_score inpC8 ≠ .ok r) :=
  ⟨Or.inl ⟨60, rfl, Or.inr (by norm_num)⟩,
    validation_rejects inpC8 (Or.inl ⟨60, rfl, Or.inr (by norm_num)⟩)⟩

/-- C9: every ScoringResult returned by calculate_score carries scoring_status
Scored; the Failed label is never produced, every failure path raising instead. -/
theorem scoring_status_always_scored (inp : ScoringInput) (r : ScoringResult)
    (h : calculate_score inp = .ok r) :
    r.scoring_status = "Scored" ∧ r.scoring_status ≠ "Failed" := by
  rcases hval : validate_input inp with e | u
  · simp [calculate_score, hval] at h
  · have hr : r = build_result inp := by
      simp [calculate_score, hval] at h
      exact h.symm
    subst hr
    refine ⟨rfl, ?_⟩
    have hsc : (build_result inp).scoring_status = "Scored" := rfl
    rw [hsc]
    decide

/-- Concrete input for the C9 witness. -/
def inpC9 : ScoringInput :=
  { practice_id := "p-c9"
    google_rating := none
    google_review_count := none
    website := none
    has_multiple_locations := false
    vet_count_total := none
    vet_count_confidence := none
    emergency_24_7 := false
    online_booking := false
    patient_portal := false
    telemedicine_virtual_care := false
    specialty_services := []
    decision_maker_name := none
    decision_maker_email := none
    enrichment_status := none }

/-- C9 witness: inpC9 scores successfully and the result status is Scored, not
Failed. -/
theorem scoring_status_always_scored_witness :
    calculate_score inpC9 = Except.ok (build_result inpC9)
    ∧ (build_result inpC9).scoring_status = "Scored"
    ∧ (build_result inpC9).scoring_status ≠ "Failed" :=
  ⟨rfl, (scoring_status_always_scored inpC9 (build_result inpC9) rfl).1,
    (scoring_status_always_scored inpC9 (build_result inpC9) rfl).2⟩

/-- Helper: the batch loop with continue_on_error set, characterized over any
accumulated summary: the processed prefix drives every counter and list. -/
theorem score_batch_go_spec (run : String → ScoreOutcome) :
    ∀ (ids : List String) (acc : BatchSummary),
      score_batch_go run true ids acc =
        { total := acc.total
          succeeded := acc.succeeded
            + (processed_ids run ids).countP (fun i => is_success (run i))
          failed := acc.failed
            + (processed_ids run ids).countP (fun i => !(is_success (run i)))
          timeout := acc.timeout
            + (processed_ids run ids).countP (fun i => is_timeout (run i))
          circuit_breaker_blocked := acc.circuit_breaker_blocked
            + (processed_ids run ids).countP (fun i => is_breaker (run i))
          results := acc.results
            ++ (processed_ids run ids).filterMap (fun i => result_entry (run i))
          errors := acc.errors
            ++ (processed_ids run ids).filterMap (fun i => error_entry i (run i)) } := by
  intro ids
  induction ids with
  | nil =>
      intro acc
      simp [score_batch_go, processed_ids]
  | cons pid rest ih =>
      intro acc
      cases hrun : run pid with
      | ok r =>
          simp only [score_batch_go, hrun, if_true]
          rw [ih]
          simp [processed_ids, hrun, List.countP_cons, is_success, is_timeout, is_breaker,
            result_entry, error_entry, BatchSummary.mk.injEq]
          omega
      | timeoutErr m =>
          simp only [score_batch_go, hrun, if_true]
          rw [ih]
          simp [processed_ids, hrun, List.countP_cons, is_success, is_timeout, is_breaker,
            result_entry, error_entry, BatchSummary.mk.injEq]
          omega
      | breakerOpenErr m =>
          simp only [score_batch_go, hrun]
          simp [processed_ids, hrun, List.countP_cons, is_success, is_timeout, is_breaker,
            result_entry, error_entry, BatchSummary.mk.injEq]
      | validationErr m =>
          simp only [score_batch_go, hrun, if_true]
          rw [ih]
          simp [processed_ids, hrun, List.countP_cons, is_success, is_timeout, is_breaker,
            result_entry, error_entry, BatchSummary.mk.injEq]
          omega
      | genericErr m =>
          simp only [score_batch_go, hrun, if_true]
          rw [ih]
          simp [processed_ids, hrun, List.countP_cons, is_success, is_timeout, is_breaker,
            result_entry, error_entry, BatchSummary.mk.injEq]
          omega

/-- Helper: non-successes split exactly into timeouts, breaker rejections and
generic failures. -/
theorem countP_not_success_split (run : String → ScoreOutcome) :
    ∀ l : List String,
      l.countP (fun i => !(is_success (run i)))
        = l.countP (fun i => is_timeout (run i))
          + l.countP (fun i => is_breaker (run i))
          + l.countP (fun i => is_general (run i)) := by
  intro l
  induction l with
  | nil => simp
  | cons a l ih =>
      cases hrun : run a <;>
        rw [List.countP_cons, List.countP_cons, List.countP_cons, List.countP_cons, ih] <;>
        simp [hrun, is_success, is_timeout, is_breaker, is_general] <;>
        omega

/-- Helper: the processed prefix is everything before the first breaker rejection,
plus that rejected id itself; nothing after it is attempted. -/
theorem processed_ids_take_until (run : String → ScoreOutcome) :
    ∀ ids : List String,
      processed_ids run ids
        = ids.takeWhile (fun i => !(is_breaker (run i)))
          ++ (ids.dropWhile (fun i => !(is_breaker (run i)))).take 1 := by
  intro ids
  induction ids with
  | nil => simp [processed_ids]
  | cons pid rest ih =>
      cases hrun : run pid <;>
        simp [processed_ids, hrun, List.takeWhile_cons, List.dropWhile_cons, is_breaker, ih]

/-- C7: in batch scoring with continue_on_error set, timeouts and generic failures
are recorded with their cause tags and the loop proceeds, while a breaker-open
error aborts the remainder of the batch at once (the processed prefix stops at
the first breaker rejection); the summary counters equal the per-outcome counts
over the processed prefix, total is the full batch size, and every timed-out or
breaker-blocked entity is also counted as failed. -/
theorem batch_error_policy (run : String → ScoreOutcome) (ids : List String) :
    (score_batch_async run true ids).total = ids.length
    ∧ (score_batch_async run true ids).succeeded
        = (processed_ids run ids).countP (fun i => is_success (run i))
    ∧ (score_batch_async run true ids).timeout
        = (processed_ids run ids).countP (fun i => is_timeout (run i))
    ∧ (score_batch_async run true ids).circuit_breaker_blocked
        = (processed_ids run ids).countP (fun i => is_breaker (run i))
    ∧ (score_batch_async run true ids).failed
        = (processed_ids run ids).countP (fun i => is_timeout (run i))
          + (processed_ids run ids).countP (fun i => is_breaker (run i))
          + (processed_ids run ids).countP (fun i => is_general (run i))
    ∧ (score_batch_async run true ids).errors
        = (processed_ids run ids).filterMap (fun i => error_entry i (run i))
    ∧ (score_batch_async run true ids).results
        = (processed_ids run ids).filterMap (fun i => result_entry (run i))
    ∧ processed_ids run ids
        = ids.takeWhile (fun i => !(is_breaker (run i)))
          ++ (ids.dropWhile (fun i => !(is_breaker (run i)))).take 1 := by
  have hgo := score_batch_go_spec run ids
    { total := ids.length
      succeeded := 0
      failed := 0
      timeout := 0
      circuit_breaker_blocked := 0
      results := []
      errors := [] }
  refine ⟨?_, ?_, ?_, ?_, ?_, ?_, ?_, processed_ids_take_until run ids⟩ <;>
    simp [score_batch_async, hgo, countP_not_success_split run (processed_ids run ids)]
